import Mathlib

/-!
Shallow embedding of the Finance-Tracker-Telegram-Bot transaction parser
(src/services/parser.py, src/config/settings.py, src/models/transaction.py,
src/services/sheets.py).

Python regular expressions are embedded as explicit scanners over `List Char`
with Python `re.search` / `re.sub` semantics: leftmost match, greedy matching
with backtracking, non-overlapping global substitution.  Character classes are
modelled over ASCII, which covers every string the program's patterns and
keyword tables can match.  Python float values are modelled exactly as
normalized fractions (`PyFloat`); every arithmetic operation the parser
performs (scaling by 1000 / 1000000, negation, balance addition) is exact.
Python `datetime` values (all carrying the fixed WIB = UTC+7 offset) are
modelled as a calendar-day index together with time-of-day fields; note that
`datetime.replace(hour=0, minute=0, second=0)` leaves the microsecond field
unchanged, which the embedding mirrors.
-/

namespace FinanceBot

/-! ### Exact model of Python floats -/

/-- An exact rational, kept normalized by the smart constructors below.  The
sign lives in `num`; all constructors keep `den` positive. -/
structure PyFloat where
  num : ℤ
  den : ℕ
deriving DecidableEq, Repr

/-- Build a normalized fraction from numerator and (positive) denominator. -/
def PyFloat.make (n : ℤ) (d : ℕ) : PyFloat :=
  let g := n.natAbs.gcd d
  if n < 0 then ⟨-((n.natAbs / g : ℕ) : ℤ), d / g⟩
  else ⟨((n.natAbs / g : ℕ) : ℤ), d / g⟩

def PyFloat.ofNat (n : ℕ) : PyFloat := ⟨(n : ℤ), 1⟩

/-- Multiplication by `10 ^ k` (Python `* 1_000` / `* 1_000_000`). -/
def PyFloat.mulPow10 (a : PyFloat) (k : ℕ) : PyFloat :=
  PyFloat.make (a.num * ((10 ^ k : ℕ) : ℤ)) a.den

/-- Python truthiness of a float: `not x` holds exactly for `0.0`. -/
def PyFloat.isZero (a : PyFloat) : Bool := a.num == 0

def PyFloat.neg (a : PyFloat) : PyFloat := ⟨-a.num, a.den⟩

def PyFloat.add (a b : PyFloat) : PyFloat :=
  PyFloat.make (a.num * b.den + b.num * a.den) (a.den * b.den)

def PyFloat.sub (a b : PyFloat) : PyFloat := PyFloat.add a (PyFloat.neg b)

/-- The value is strictly positive (the denominator is always positive). -/
abbrev PyFloat.IsPos (a : PyFloat) : Prop := 0 < a.num

/-- The value is strictly negative. -/
abbrev PyFloat.IsNeg (a : PyFloat) : Prop := a.num < 0

/-! ### ASCII character classes and regex scaffolding -/

/-- ASCII lower-casing, as `str.lower()` acts on the ASCII range. -/
def asciiLower (c : Char) : Char :=
  if 'A' ≤ c && c ≤ 'Z' then Char.ofNat (c.toNat + 32) else c

def isDigitC (c : Char) : Bool := '0' ≤ c && c ≤ '9'

/-- Python `\s` over ASCII. -/
def isPySpace (c : Char) : Bool :=
  c = ' ' || c = '\t' || c = '\n' || c = '\r' || c = '\x0b' || c = '\x0c'

/-- Python `\w` over ASCII. -/
def isWordC (c : Char) : Bool :=
  ('a' ≤ c && c ≤ 'z') || ('A' ≤ c && c ≤ 'Z') || isDigitC c || c = '_'

/-- A `\b` word boundary holds before the current position. -/
def noWordBefore : Option Char → Bool
  | none => true
  | some c => !isWordC c

/-- A `\b` word boundary holds after the consumed text. -/
def noWordAfter : List Char → Bool
  | [] => true
  | c :: _ => !isWordC c

/-- Case-insensitive literal match (the literal is lowercase); returns the rest
of the input after the literal, or `none` if the literal is not a prefix.
All the program's patterns are matched either against pre-lowercased text or
under `re.IGNORECASE`, so every literal comparison is case-insensitive. -/
def litCI : List Char → List Char → Option (List Char)
  | [], s => some s
  | _ :: _, [] => none
  | l :: ls, c :: cs => if asciiLower c = l then litCI ls cs else none

/-- Try a list of literal alternatives in order (regex alternation). -/
def litAlts : List (List Char) → List Char → Option (List Char)
  | [], _ => none
  | a :: as_, s =>
    match litCI a s with
    | some r => some r
    | none => litAlts as_ s

/-- Python `int(...)` on a digit string. -/
def digitsToNat (ds : List Char) : ℕ :=
  ds.foldl (fun a c => a * 10 + (c.toNat - 48)) 0

/-- Generic `re.search` driver: try the position matcher at every position,
left to right, threading the previous character (for `\b` tests). -/
def searchPos {α : Type} (f : Option Char → List Char → Option α) :
    Option Char → List Char → Option α
  | prev, [] => f prev []
  | prev, c :: t =>
    match f prev (c :: t) with
    | some r => some r
    | none => searchPos f (some c) t

/-- Generic `re.sub(pattern, '')` driver (fuelled; every pattern used consumes
at least one character, so `fuel = length` always suffices).  The position
matcher returns the rest of the input after the match; scanning resumes there,
with the last consumed character as the new preceding character. -/
def subAllAux (f : Option Char → List Char → Option (List Char)) :
    ℕ → Option Char → List Char → List Char
  | 0, _, s => s
  | Nat.succ fuel, prev, s =>
    match s with
    | [] => []
    | c :: t =>
      match f prev s with
      | some rest =>
        let consumed := s.take (s.length - rest.length)
        let prev2 := match consumed.getLast? with
          | some lc => some lc
          | none => prev
        subAllAux f fuel prev2 rest
      | none => c :: subAllAux f fuel (some c) t

def subAll (f : Option Char → List Char → Option (List Char)) (s : List Char) :
    List Char :=
  subAllAux f s.length none s

/-- Forget the capture of a position matcher, keeping only the rest. -/
def dropCap {α : Type} (f : Option Char → List Char → Option (α × List Char)) :
    Option Char → List Char → Option (List Char) :=
  fun p s => (f p s).map (·.2)

/-! ### The numeral fragment `\d+\.?\d*` of the amount patterns

At any viable starting position the backtracking possibilities collapse to a
single candidate: the maximal digit run, extended by `.` and the following
maximal digit run when a dot is present (any shorter extent leaves a digit
directly ahead, where neither `\s` nor the suffix letters can match). -/

structure Numeral where
  ip : List Char
  fp : Option (List Char)
deriving DecidableEq, Repr

/-- Value of Python `float(...)` on the captured numeral text. -/
def floatVal (n : Numeral) : PyFloat :=
  match n.fp with
  | none => PyFloat.ofNat (digitsToNat n.ip)
  | some d2 =>
    PyFloat.make
      ((digitsToNat n.ip * 10 ^ d2.length + digitsToNat d2 : ℕ) : ℤ)
      (10 ^ d2.length)

/-- Match `\d+\.?\d*` at the current position. -/
def tryNumeral (s : List Char) : Option (Numeral × List Char) :=
  let p := s.span isDigitC
  if p.1.isEmpty then none
  else
    match p.2 with
    | '.' :: r2 =>
      let q := r2.span isDigitC
      some (⟨p.1, some q.1⟩, q.2)
    | _ => some (⟨p.1, none⟩, p.2)

/-! ### Literal fragments used by the patterns -/

def wJt : List Char := (r"jt").data
def wJuta : List Char := (r"juta").data
def wK : List Char := (r"k").data
def wRb : List Char := (r"rb").data
def wRibu : List Char := (r"ribu").data
def wKemarin : List Char := (r"kemarin").data
def wYesterday : List Char := (r"yesterday").data
def wHari : List Char := (r"hari").data
def wYang : List Char := (r"yang").data
def wLalu : List Char := (r"lalu").data
def wMinggu : List Char := (r"minggu").data
def wBulan : List Char := (r"bulan").data
def wLast : List Char := (r"last").data
def wWeek : List Char := (r"week").data
def wMonth : List Char := (r"month").data
def wSatu : List Char := (r"satu").data
def wDua : List Char := (r"dua").data
def wTiga : List Char := (r"tiga").data
def wEmpat : List Char := (r"empat").data
def wLima : List Char := (r"lima").data
def wEnam : List Char := (r"enam").data
def wTujuh : List Char := (r"tujuh").data
def wDelapan : List Char := (r"delapan").data
def wSembilan : List Char := (r"sembilan").data
def wSepuluh : List Char := (r"sepuluh").data
def wSebelas : List Char := (r"sebelas").data
def wBelas : List Char := (r"belas").data
def wDuaBelas : List Char := (r"dua belas").data

/-! ### AmountExtractor (`MessageParser.extract_amount`, parser.py 103-124) -/

/-- Position matcher for `(\d+\.?\d*)\s*(?:jt|juta)` (parser.py line 109). -/
def tryJuta (_ : Option Char) (s : List Char) : Option (Numeral × List Char) :=
  (tryNumeral s).bind fun nr =>
    (litAlts [wJt, wJuta] (nr.2.dropWhile isPySpace)).map fun rest => (nr.1, rest)

/-- The suffix alternation `k\b|rb|ribu`, tried in order. -/
def tryRibuSuffix (r : List Char) : Option (List Char) :=
  match r with
  | [] => none
  | c :: t =>
    if asciiLower c = 'k' && noWordAfter t then some t
    else
      match litCI wRb r with
      | some x => some x
      | none => litCI wRibu r

/-- Position matcher for `(\d+\.?\d*)\s*(?:k\b|rb|ribu)` (parser.py line 114). -/
def tryRibu (_ : Option Char) (s : List Char) : Option (Numeral × List Char) :=
  (tryNumeral s).bind fun nr =>
    (tryRibuSuffix (nr.2.dropWhile isPySpace)).map fun rest => (nr.1, rest)

/-- Position matcher for `\b(\d{3,})\b` (parser.py line 120).  Backtracking to
a shorter digit run always puts the trailing `\b` between two digits, so the
only candidate is the maximal run. -/
def tryAngka (prev : Option Char) (s : List Char) :
    Option (List Char × List Char) :=
  if noWordBefore prev then
    let p := s.span isDigitC
    if 3 ≤ p.1.length && noWordAfter p.2 then some (p.1, p.2) else none
  else none

/-- The preprocessing of `extract_amount`: `text.lower().replace(',', '.')`. -/
def preprocessAmount (text : String) : List Char :=
  (text.data.map asciiLower).map fun c => if c = ',' then '.' else c

/-- Embeds `MessageParser.extract_amount`: lower-case the text, replace `,` by `.`,
then try the million pattern, the thousand pattern and the bare `\b\d{3,}\b`
pattern, in that order. -/
def extract_amount (text : String) : Option PyFloat :=
  match searchPos tryJuta none (preprocessAmount text) with
  | some n => some ((floatVal n.1).mulPow10 6)
  | none =>
    match searchPos tryRibu none (preprocessAmount text) with
    | some n => some ((floatVal n.1).mulPow10 3)
    | none =>
      match searchPos tryAngka none (preprocessAmount text) with
      | some ds => some (PyFloat.ofNat (digitsToNat ds.1))
      | none => none

/-! ### DateResolver (`MessageParser.extract_date`, parser.py 32-86) -/

/-- A Python `datetime` in the fixed WIB offset: a day index (days since
1970-01-01) plus time-of-day fields. -/
structure PyDateTime where
  days : ℤ
  hour : ℕ
  minute : ℕ
  second : ℕ
  microsecond : ℕ
deriving DecidableEq, Repr

/-- Embeds `dt.replace(hour=0, minute=0, second=0)` — the microsecond field is left
unchanged, exactly as in the source. -/
def replace000 (d : PyDateTime) : PyDateTime :=
  { d with hour := 0, minute := 0, second := 0 }

/-- Embeds `dt - timedelta(days=n)` for a fixed-offset datetime. -/
def subDays (n : ℕ) (d : PyDateTime) : PyDateTime :=
  { d with days := d.days - (n : ℤ) }

/-- Day index of a Gregorian calendar date (days since 1970-01-01), for years
`≥ 1`; the standard civil-from-days conversion. -/
def daysFromCivil (y m d : ℕ) : ℤ :=
  let yy := if m ≤ 2 then y - 1 else y
  let era := yy / 400
  let yoe := yy % 400
  let mp := (m + 9) % 12
  let doy := (153 * mp + 2) / 5 + d - 1
  let doe := yoe * 365 + yoe / 4 - yoe / 100 + doy
  (era : ℤ) * 146097 + (doe : ℤ) - 719468

/-- Inverse of `daysFromCivil`, used for `strftime`. -/
def civilFromDays (z : ℤ) : ℕ × ℕ × ℕ :=
  let z2 := (z + 719468).toNat
  let era := z2 / 146097
  let doe := z2 % 146097
  let yoe := (doe - doe / 1460 + doe / 36524 - doe / 146096) / 365
  let y := yoe + era * 400
  let doy := doe - (365 * yoe + yoe / 4 - yoe / 100)
  let mp := (5 * doy + 2) / 153
  let d := doy - (153 * mp + 2) / 5 + 1
  let m := if mp < 10 then mp + 3 else mp - 9
  (if m ≤ 2 then y + 1 else y, m, d)

def isLeap (y : ℕ) : Bool := y % 4 = 0 && (y % 100 ≠ 0 || y % 400 = 0)

def daysInMonth (y m : ℕ) : ℕ :=
  if m = 2 then (if isLeap y then 29 else 28)
  else if m = 4 || m = 6 || m = 9 || m = 11 then 30
  else 31

/-- Python `datetime(year, month, day)` validity (raises `ValueError` outside
this range; the source catches the exception and falls through to `None`). -/
def validYMD (y m d : ℕ) : Bool :=
  1 ≤ y && y ≤ 9999 && 1 ≤ m && m ≤ 12 && 1 ≤ d && d ≤ daysInMonth y m

/-- Embeds `datetime(year, month, day, hour=0, minute=0, second=0, tzinfo=WIB)`,
returning `none` where the constructor would raise `ValueError`. -/
def mkDateMidnight (y m d : ℕ) : Option PyDateTime :=
  if validYMD y m d then some ⟨daysFromCivil y m d, 0, 0, 0, 0⟩ else none

/-- Position matcher for `\bw\b` with a literal word `w`. -/
def tryBWord (w : List Char) (prev : Option Char) (s : List Char) :
    Option (List Char) :=
  if noWordBefore prev then
    match litCI w s with
    | some rest => if noWordAfter rest then some rest else none
    | none => none
  else none

/-- Position matcher for `\bkemarin\b|\byesterday\b` (parser.py line 39). -/
def tryKemarin (prev : Option Char) (s : List Char) : Option (List Char) :=
  match tryBWord wKemarin prev s with
  | some r => some r
  | none => tryBWord wYesterday prev s

/-- Match the tail `(?:hari\s*(?:yang\s*)?)?lalu` with its backtracking order:
the optional groups are tried greedily first, then dropped. -/
def laluTail (r2 : List Char) : Option (List Char) :=
  match litCI wHari r2 with
  | some r3 =>
    let r4 := r3.dropWhile isPySpace
    match
      (match litCI wYang r4 with
       | some r5 =>
         match litCI wLalu (r5.dropWhile isPySpace) with
         | some r6 => some r6
         | none => litCI wLalu r4
       | none => litCI wLalu r4) with
    | some r => some r
    | none => litCI wLalu r2
  | none => litCI wLalu r2

/-- Position matcher for `(\d+)\s*(?:hari\s*(?:yang\s*)?)?lalu`
(parser.py line 44); captures the digit run. -/
def tryNumLalu (_ : Option Char) (s : List Char) :
    Option (List Char × List Char) :=
  let p := s.span isDigitC
  if p.1.isEmpty then none
  else
    match laluTail (p.2.dropWhile isPySpace) with
    | some rest => some (p.1, rest)
    | none => none

def INDO_SIMPLE : List (List Char) :=
  [wSatu, wDua, wTiga, wEmpat, wLima, wEnam, wTujuh, wDelapan, wSembilan,
   wSepuluh, wSebelas]

/-- Continuation `\s+(?:hari\s*(?:yang\s*)?)?lalu` after a matched number word. -/
def indoCont (cap r : List Char) : Option (List Char × List Char) :=
  if (r.takeWhile isPySpace).isEmpty then none
  else (laluTail (r.dropWhile isPySpace)).map fun rest => (cap, rest)

/-- The last alternative `dua\s+belas` of the number-word alternation. -/
def tryDuaBelas (s : List Char) : Option (List Char × List Char) :=
  match litCI wDua s with
  | some r1 =>
    if (r1.takeWhile isPySpace).isEmpty then none
    else
      match litCI wBelas (r1.dropWhile isPySpace) with
      | some r2 => some (s.take (s.length - r2.length), r2)
      | none => none
  | none => none

/-- Try the simple number-word alternatives in order, each followed by the
`\s+ ... lalu` continuation; on failure of the continuation the alternation
backtracks to the next word. -/
def tryIndoWordList : List (List Char) → List Char → Option (List Char × List Char)
  | [], _ => none
  | w :: ws, s =>
    match litCI w s with
    | some r =>
      match indoCont (s.take (s.length - r.length)) r with
      | some res => some res
      | none => tryIndoWordList ws s
    | none => tryIndoWordList ws s

/-- Position matcher for the spelled-out pattern of parser.py line 52;
captures the matched number-word text. -/
def tryIndoLalu (_ : Option Char) (s : List Char) :
    Option (List Char × List Char) :=
  match tryIndoWordList INDO_SIMPLE s with
  | some res => some res
  | none =>
    match tryDuaBelas s with
    | some cr => indoCont cr.1 cr.2
    | none => none

/-- Position matcher for `minggu\s*(?:lalu|kemarin)|last\s*week`
(parser.py line 61). -/
def tryMinggu (_ : Option Char) (s : List Char) : Option (List Char) :=
  match
    (match litCI wMinggu s with
     | some r => litAlts [wLalu, wKemarin] (r.dropWhile isPySpace)
     | none => none) with
  | some r => some r
  | none =>
    match litCI wLast s with
    | some r => litCI wWeek (r.dropWhile isPySpace)
    | none => none

/-- Position matcher for `bulan\s*(?:lalu|kemarin)|last\s*month`
(parser.py line 66). -/
def tryBulan (_ : Option Char) (s : List Char) : Option (List Char) :=
  match
    (match litCI wBulan s with
     | some r => litAlts [wLalu, wKemarin] (r.dropWhile isPySpace)
     | none => none) with
  | some r => some r
  | none =>
    match litCI wLast s with
    | some r => litCI wMonth (r.dropWhile isPySpace)
    | none => none

/-- Exactly `n` digits. -/
def takeDigitsN (n : ℕ) (s : List Char) : Option (List Char × List Char) :=
  let t := s.take n
  if t.length = n && t.all isDigitC then some (t, s.drop n) else none

def trySep : List Char → Option (List Char)
  | c :: t => if c = '/' || c = '-' then some t else none
  | [] => none

/-- One greedy choice: `a` digits, slash-or-dash, `b` digits, slash-or-dash,
four digits. -/
def tryDMY (a b : ℕ) (s : List Char) : Option ((ℕ × ℕ × ℕ) × List Char) :=
  (takeDigitsN a s).bind fun d1 =>
    (trySep d1.2).bind fun r2 =>
      (takeDigitsN b r2).bind fun d2 =>
        (trySep d2.2).bind fun r4 =>
          (takeDigitsN 4 r4).map fun d3 =>
            ((digitsToNat d1.1, digitsToNat d2.1, digitsToNat d3.1), d3.2)

/-- Position matcher for the date-literal pattern of parser.py line 71 —
one-or-two digits, slash-or-dash, one-or-two digits, slash-or-dash, four
digits — with the greedy backtracking order of the two `{1,2}` counters. -/
def tryDateLit (_ : Option Char) (s : List Char) :
    Option ((ℕ × ℕ × ℕ) × List Char) :=
  match tryDMY 2 2 s with
  | some r => some r
  | none =>
    match tryDMY 2 1 s with
    | some r => some r
    | none =>
      match tryDMY 1 2 s with
      | some r => some r
      | none => tryDMY 1 1 s

/-- Python `str.strip()`. -/
def stripPy (t : List Char) : List Char :=
  ((t.dropWhile isPySpace).reverse.dropWhile isPySpace).reverse

def INDONESIAN_NUMBERS : List (List Char × ℕ) :=
  [(wSatu, 1), (wDua, 2), (wTiga, 3), (wEmpat, 4), (wLima, 5), (wEnam, 6),
   (wTujuh, 7), (wDelapan, 8), (wSembilan, 9), (wSepuluh, 10), (wSebelas, 11),
   (wDuaBelas, 12)]

/-- Embeds `MessageParser.parse_indonesian_number` (parser.py 20-30): lower-case,
strip, then exact-equality lookup in the word table. -/
def parse_indonesian_number (w : List Char) : Option ℕ :=
  let t := stripPy (w.map asciiLower)
  (INDONESIAN_NUMBERS.find? fun p => p.1 == t).map (·.2)

/-- Embeds `MessageParser.extract_date` (parser.py 32-86).  The source reads the
current time inside the function; it is passed here as `now`. -/
def extract_date (text : String) (now : PyDateTime) : Option PyDateTime :=
  let tl := text.data.map asciiLower
  if (searchPos tryKemarin none tl).isSome then
    some (subDays 1 (replace000 now))
  else
    match searchPos tryNumLalu none tl with
    | some ds => some (subDays (digitsToNat ds.1) (replace000 now))
    | none =>
      match
        (match searchPos tryIndoLalu none tl with
         | some cap =>
           match parse_indonesian_number cap.1 with
           | some d => if d = 0 then none else some (subDays d (replace000 now))
           | none => none
         | none => none) with
      | some r => some r
      | none =>
        if (searchPos tryMinggu none tl).isSome then
          some (subDays 7 (replace000 now))
        else if (searchPos tryBulan none tl).isSome then
          some (subDays 30 (replace000 now))
        else
          match searchPos tryDateLit none text.data with
          | some dmy => mkDateMidnight dmy.1.2.2 dmy.1.2.1 dmy.1.1
          | none => none

/-! ### DescriptionCleaner (`clean_text_from_date` / `clean_description`,
parser.py 88-101 and 145-157) -/

/-- Position matcher for the cleaner's combined amount-unit pattern
`\d+\.?\d*\s*(?:jt|juta|k|rb|ribu)` (parser.py line 151).  Unlike the
extractor's thousand pattern, `k` carries no word boundary here. -/
def tryAmountUnit (_ : Option Char) (s : List Char) : Option (List Char) :=
  (tryNumeral s).bind fun nr =>
    litAlts [wJt, wJuta, wK, wRb, wRibu] (nr.2.dropWhile isPySpace)

/-- Embeds the whitespace-collapsing substitution of parser.py line 155: collapse each whitespace run to one space
(fuelled; each step consumes at least one character, so `fuel = length`
always suffices). -/
def collapseWsAux : ℕ → List Char → List Char
  | 0, s => s
  | _, [] => []
  | Nat.succ fuel, c :: t =>
    if isPySpace c then ' ' :: collapseWsAux fuel (t.dropWhile isPySpace)
    else c :: collapseWsAux fuel t

def collapseWs (s : List Char) : List Char := collapseWsAux s.length s

/-- Embeds `MessageParser.clean_text_from_date` (parser.py 88-101): six global
substitutions, in source order. -/
def clean_text_from_date (t : List Char) : List Char :=
  let t1 := subAll tryKemarin t
  let t2 := subAll (dropCap tryNumLalu) t1
  let t3 := subAll (dropCap tryIndoLalu) t2
  let t4 := subAll tryMinggu t3
  let t5 := subAll tryBulan t4
  subAll (dropCap tryDateLit) t5

def sTransaksi : String := r"Transaksi"

/-- Embeds `MessageParser.clean_description` (parser.py 145-157).  The `amount`
argument is accepted and ignored, as in the source. -/
def clean_description (text : String) (_amount : PyFloat) : String :=
  let t := clean_text_from_date text.data
  let t2 := subAll tryAmountUnit t
  let t3 := subAll (dropCap tryAngka) t2
  let t4 := stripPy (collapseWs t3)
  if t4.isEmpty then sTransaksi else String.mk t4

/-! ### Classifier (`detect_category`, parser.py 126-143; keyword tables from
config/settings.py 33-68) -/

def sIncome : String := r"income"
def sExpense : String := r"expense"
def sPemasukan : String := r"Pemasukan"
def sPengeluaran : String := r"Pengeluaran"
def sLainnya : String := r"Lainnya"

def INCOME_KEYWORDS : List String :=
  [r"gaji", r"terima", r"transfer", r"bonus", r"freelance",
   r"pendapatan", r"dapat", r"masuk", r"bayaran", r"honor",
   r"untung", r"diterima", r"income"]

def EXPENSE_KEYWORDS : List (String × List String) :=
  [(r"Makan",
    [r"makan", r"sarapan", r"lunch", r"dinner", r"nasi", r"ayam", r"soto",
     r"bakso", r"mie", r"kopi", r"teh", r"minum", r"snack", r"jajan",
     r"cemilan", r"food", r"geprek", r"seblak", r"warteg", r"resto",
     r"restoran", r"cafe", r"kedai", r"lapar", r"kenyang", r"minum",
     r"minuman"]),
   (r"Transport",
    [r"transport", r"grab", r"gojek", r"ojek", r"taxi", r"angkot", r"bus",
     r"bensin", r"parkir", r"tol", r"kereta", r"travel", r"pergi",
     r"pulang"]),
   (r"Belanja",
    [r"belanja", r"beli", r"baju", r"celana", r"sepatu", r"tas",
     r"shopee", r"tokped", r"tokopedia", r"lazada", r"blibli", r"toko",
     r"shopping", r"shop"]),
   (r"Tagihan",
    [r"listrik", r"air", r"pdam", r"wifi", r"internet", r"pulsa",
     r"paket data", r"token", r"bayar", r"cicilan", r"angsuran", r"pln",
     r"tagihan"]),
   (r"Hiburan",
    [r"nonton", r"bioskop", r"film", r"game", r"main", r"liburan",
     r"wisata", r"netflix", r"spotify", r"steam", r"tiket",
     r"jalan-jalan"]),
   (r"Kesehatan",
    [r"obat", r"dokter", r"rumah sakit", r"rs", r"klinik", r"vitamin",
     r"apotek", r"medical", r"checkup", r"berobat", r"sakit"])]

/-- Python substring containment `needle in hay`. -/
def containsSub (nd : List Char) : List Char → Bool
  | [] => nd.isPrefixOf ([] : List Char)
  | c :: t => nd.isPrefixOf (c :: t) || containsSub nd t

/-- Embeds `MessageParser.detect_category` (parser.py 126-143): first the ordered
income keywords, then the ordered expense-category table, all by substring
containment on the lowercased text; default `('expense', 'Lainnya')`. -/
def detect_category (text : String) : String × String :=
  let t := text.data.map asciiLower
  if INCOME_KEYWORDS.any (fun k => containsSub k.data t) then
    (sIncome, sPemasukan)
  else
    match EXPENSE_KEYWORDS.find? (fun p => p.2.any fun k => containsSub k.data t) with
    | some p => (sExpense, p.1)
    | none => (sExpense, sLainnya)

/-! ### TransactionBuilder (`parse_message`, parser.py 159-193) and the
record model (models/transaction.py) -/

structure Transaction where
  amount : PyFloat
  transaction_type : String
  category : String
  description : String
  date : PyDateTime
  photo_url : Option String := none
  detail : Option String := none
deriving DecidableEq, Repr

/-- Embeds `MessageParser.parse_message`: extract the amount (aborting on `None` or
`0.0`, both falsy under `if not amount`), classify, clean the description,
resolve the date (explicit override, else text, else `now`), and assemble. -/
def parse_message (text : String) (custom_date : Option PyDateTime)
    (now : PyDateTime) : Option Transaction :=
  match extract_amount text with
  | none => none
  | some amount =>
    if amount.isZero then none
    else
      let tc := detect_category text
      let description := clean_description text amount
      let date :=
        match custom_date with
        | some d => d
        | none =>
          match extract_date text now with
          | some d => d
          | none => now
      some ⟨amount, tc.1, tc.2, description, date, none, none⟩

/-! ### TransactionFormatter / persistable row (`Transaction.to_dict`,
transaction.py 16-27, and `GoogleSheetsManager.add_transaction`,
sheets.py 96-111) -/

def sSlash : String := r"/"
def sColon : String := r":"
def sEmpty : String := r""
def sZeroDigit : String := r"0"

def padTo (width : ℕ) (n : ℕ) : String :=
  let s := toString n
  if s.length < width then
    String.mk (List.replicate (width - s.length) '0') ++ s
  else s

/-- Embeds `strftime` with the date format of transaction.py line 19. -/
def strfDate (t : PyDateTime) : String :=
  let c := civilFromDays t.days
  padTo 2 c.2.2 ++ sSlash ++ padTo 2 c.2.1 ++ sSlash ++ padTo 4 c.1

/-- Embeds `strftime` with the time format of transaction.py line 20. -/
def strfTime (t : PyDateTime) : String :=
  padTo 2 t.hour ++ sColon ++ padTo 2 t.minute ++ sColon ++ padTo 2 t.second

structure TransactionDict where
  date : String
  time : String
  type_ : String
  category : String
  amount : PyFloat
  description : String
  detail : String
  photo_url : String
deriving DecidableEq, Repr

/-- Embeds `Transaction.to_dict` (transaction.py 16-27). -/
def Transaction.to_dict (t : Transaction) : TransactionDict :=
  { date := strfDate t.date
    time := strfTime t.date
    type_ := if t.transaction_type = sIncome then sPemasukan else sPengeluaran
    category := t.category
    amount := t.amount
    description := t.description
    detail := t.detail.getD sEmpty
    photo_url := t.photo_url.getD sEmpty }

/-- A spreadsheet cell: the row mixes strings and numbers. -/
inductive Cell where
  | str (s : String)
  | num (q : PyFloat)
deriving DecidableEq, Repr

/-- The row assembled by `GoogleSheetsManager.add_transaction`
(sheets.py 85-108) from `to_dict` output, the signed display amount, and the
new balance computed from the collaborator's current balance. -/
def add_transaction_row (t : Transaction) (current_balance : PyFloat) :
    List Cell :=
  let data := t.to_dict
  let new_balance :=
    if t.transaction_type = sIncome then current_balance.add t.amount
    else current_balance.sub t.amount
  let amount_display :=
    if t.transaction_type = sIncome then t.amount else t.amount.neg
  [Cell.str data.date, Cell.str data.time, Cell.str data.type_,
   Cell.str data.category, Cell.num amount_display, Cell.str data.description,
   Cell.str data.detail, Cell.num new_balance]

/-! ### Concrete inputs and expected values used by the theorems -/

def now0 : PyDateTime := ⟨20000, 13, 45, 59, 500000⟩

def amt1 : PyFloat := PyFloat.ofNat 1

def tAmt1 : String := "makan siang 25000"
def tAmt2 : String := "beli kopi 15rb"
def tAmt3 : String := "gaji 5jt"
def tAmt4 : String := "bonus 1,5jt"
def tAmt5 : String := "halo"
def tAmt6 : String := "99"
def tAmt7 : String := "100"
def tAmt8 : String := "500 2jt"
def tZero : String := "000"
def tZeroJt : String := "0jt"
def tMakan : String := "makan 25000"
def tCls1 : String := "gaji bulan ini"
def tCls2 : String := "makan siang"
def tCls3 : String := "terserah"
def tDate1 : String := "kemarin"
def tDate2 : String := "3 hari lalu"
def tDate3 : String := "dua hari lalu"
def tDate4 : String := "minggu lalu"
def tDate5 : String := "bulan lalu"
def tDate6 : String := "10/01/2026"
def tBad1 : String := "32/01/2026"
def tBad2 : String := "ok 31/02/2026 ok"
def tBad3 : String := "1/13/2026"
def tBadKem : String := "kemarin 32/01/2026"
def tIdem : String := "a 5 6kk"
def tIdemOut : String := "a 5 k"
def tIdemOut2 : String := "a"
def tStable : String := "makan kemarin 15rb"
def tKg : String := "15kg"
def tLalu1 : String := "5lalu"
def tLalu2 : String := "5 lalu"
def tLalu3 : String := "5 hari lalu"
def tLaluKem : String := "kemarin 5lalu"
def tLaluClean : String := "makan 5lalu 25000"
def sKesehatan : String := "Kesehatan"
def sMakanCat : String := "Makan"
def sMakanDesc : String := "makan"
def sG : String := "g"
def sBonus1Comma : String := "bonus 1,"
def sBeliKopi : String := "beli kopi"

/-- Concrete transaction used for the C9 witness. -/
def t9 : Transaction :=
  ⟨PyFloat.ofNat 25000, sExpense, sMakanCat, sMakanDesc, ⟨20453, 12, 0, 0, 0⟩,
   none, none⟩

/-! ### Helper lemmas (shared) -/

theorem make_num_nonneg {n : ℤ} (d : ℕ) (hn : 0 ≤ n) :
    0 ≤ (PyFloat.make n d).num := by
  unfold PyFloat.make
  split
  · next h => exact absurd h (not_lt.mpr hn)
  · exact Int.natCast_nonneg _

theorem floatVal_num_nonneg (n : Numeral) : 0 ≤ (floatVal n).num := by
  unfold floatVal
  cases n.fp with
  | none => exact Int.natCast_nonneg _
  | some d2 => exact make_num_nonneg _ (Int.natCast_nonneg _)

theorem mulPow10_num_nonneg (a : PyFloat) (k : ℕ) (h : 0 ≤ a.num) :
    0 ≤ (a.mulPow10 k).num :=
  make_num_nonneg _ (mul_nonneg h (Int.natCast_nonneg _))

/-- Every amount the extractor can produce is nonnegative: each branch scales
a digit-string value by a nonnegative factor. -/
theorem extract_amount_num_nonneg (text : String) (a : PyFloat)
    (h : extract_amount text = some a) : 0 ≤ a.num := by
  unfold extract_amount at h
  cases h1 : searchPos tryJuta none (preprocessAmount text) with
  | some n =>
    rw [h1] at h
    injection h with h2
    rw [← h2]
    exact mulPow10_num_nonneg _ _ (floatVal_num_nonneg _)
  | none =>
    rw [h1] at h
    cases h2 : searchPos tryRibu none (preprocessAmount text) with
    | some n =>
      rw [h2] at h
      injection h with h3
      rw [← h3]
      exact mulPow10_num_nonneg _ _ (floatVal_num_nonneg _)
    | none =>
      rw [h2] at h
      cases h3 : searchPos tryAngka none (preprocessAmount text) with
      | some ds =>
        rw [h3] at h
        injection h with h4
        rw [← h4]
        exact Int.natCast_nonneg _
      | none => rw [h3] at h; exact absurd h (by simp)

/-- Evaluation lemma for `parse_message`: no amount found. -/
theorem parse_message_none_of_extract_none {text : String}
    (cd : Option PyDateTime) (now : PyDateTime)
    (he : extract_amount text = none) : parse_message text cd now = none := by
  unfold parse_message
  rw [he]

/-- Evaluation lemma for `parse_message`: a zero amount is falsy and aborts. -/
theorem parse_message_none_of_zero {text : String} (cd : Option PyDateTime)
    (now : PyDateTime) {a : PyFloat} (he : extract_amount text = some a)
    (hz : a.isZero = true) : parse_message text cd now = none := by
  unfold parse_message
  rw [he]
  simp [hz]

/-- Evaluation lemma for `parse_message`: a nonzero amount yields the assembled
record. -/
theorem parse_message_some {text : String} (cd : Option PyDateTime)
    (now : PyDateTime) {a : PyFloat} (he : extract_amount text = some a)
    (hz : a.isZero = false) :
    parse_message text cd now =
      some ⟨a, (detect_category text).1, (detect_category text).2,
        clean_description text a,
        (match cd with
         | some d => d
         | none =>
           match extract_date text now with
           | some d => d
           | none => now),
        none, none⟩ := by
  unfold parse_message
  rw [he]
  simp [hz]

/-! ### Claim theorems -/

/-- Claim C1, counterexample: on the text `"000"` the extractor returns the
value `0.0`, yet the builder returns `none` — so `build` does not return a
record whenever `extract` returns a value, and `none` is not returned exactly
on "not found". -/
theorem c1_counterexample :
    extract_amount tZero = some (PyFloat.ofNat 0) ∧
    parse_message tZero none now0 = none := by decide

/-- Claim C1 (amended): the builder returns `none` exactly when the extractor
reports not-found or returns the falsy value `0.0` (Python `if not amount:`),
and whenever the extractor returns a nonzero value `v` the builder returns a
record whose `amount` equals `v`. -/
theorem c1_amount_gate (text : String) (cd : Option PyDateTime)
    (now : PyDateTime) :
    (parse_message text cd now = none ↔
      (extract_amount text = none ∨
        ∃ a, extract_amount text = some a ∧ a.isZero = true)) ∧
    (∀ v, extract_amount text = some v → v.isZero = false →
      ∃ t, parse_message text cd now = some t ∧ t.amount = v) := by
  refine ⟨⟨?_, ?_⟩, ?_⟩
  · intro h
    cases he : extract_amount text with
    | none => exact Or.inl rfl
    | some a =>
      by_cases hz : a.isZero = true
      · exact Or.inr ⟨a, rfl, hz⟩
      · have hz2 : a.isZero = false := by simpa using hz
        rw [parse_message_some cd now he hz2] at h
        exact absurd h (by simp)
  · intro h
    rcases h with he | ⟨a, he, hz⟩
    · exact parse_message_none_of_extract_none cd now he
    · exact parse_message_none_of_zero cd now he hz
  · intro v hv hz
    exact ⟨_, parse_message_some cd now hv hz, rfl⟩

/-- Claim C1, witness: on `"makan 25000"` the builder produces a record with
amount 25000, as guaranteed by `c1_amount_gate`. -/
theorem c1_amount_gate_witness :
    ∃ t, parse_message tMakan none now0 = some t ∧
      t.amount = PyFloat.ofNat 25000 :=
  (c1_amount_gate tMakan none now0).2 (PyFloat.ofNat 25000) (by decide)
    (by decide)

/-- Claim C2: the extractor's documented behaviour on the spec's examples,
including the priority of the million pattern over a leftmost bare integer
(`"500 2jt"`) and the 3-digit floor. -/
theorem c2_extract_examples :
    extract_amount tAmt1 = some (PyFloat.ofNat 25000) ∧
    extract_amount tAmt2 = some (PyFloat.ofNat 15000) ∧
    extract_amount tAmt3 = some (PyFloat.ofNat 5000000) ∧
    extract_amount tAmt4 = some (PyFloat.ofNat 1500000) ∧
    extract_amount tAmt5 = none ∧
    extract_amount tAmt6 = none ∧
    extract_amount tAmt7 = some (PyFloat.ofNat 100) ∧
    extract_amount tAmt8 = some (PyFloat.ofNat 2000000) := by decide

/-- Claim C3, counterexample: the extractor itself does not reject zero:
on `"0jt"` it returns the value `0.0`, which is not strictly positive. -/
theorem c3_counterexample :
    extract_amount tZeroJt = some (PyFloat.ofNat 0) ∧
    ¬ (PyFloat.ofNat 0).IsPos := by decide

/-- Claim C3 (amended): every transaction the builder produces has a strictly
positive amount — the extractor never returns a negative value, and the
builder's truthiness check (not the extractor) rejects the value zero. -/
theorem c3_amount_positive (text : String) (cd : Option PyDateTime)
    (now : PyDateTime) (t : Transaction)
    (h : parse_message text cd now = some t) : t.amount.IsPos := by
  cases he : extract_amount text with
  | none =>
    rw [parse_message_none_of_extract_none cd now he] at h
    exact absurd h (by simp)
  | some a =>
    by_cases hz : a.isZero = true
    · rw [parse_message_none_of_zero cd now he hz] at h
      exact absurd h (by simp)
    · have hz2 : a.isZero = false := by simpa using hz
      rw [parse_message_some cd now he hz2] at h
      have hnn := extract_amount_num_nonneg text a he
      have hne : a.num ≠ 0 := by
        simpa [PyFloat.isZero] using hz2
      injection h with h2
      rw [← h2]
      exact lt_of_le_of_ne hnn (Ne.symm hne)

/-- Claim C3, witness: the record built from `"makan 25000"` has a strictly
positive amount, via `c3_amount_positive`. -/
theorem c3_amount_positive_witness : (PyFloat.ofNat 25000).IsPos :=
  c3_amount_positive tMakan none now0
    ⟨PyFloat.ofNat 25000, sExpense, sMakanCat, sMakanDesc, now0, none, none⟩
    (by decide)

/-- Claim C4, counterexample: `classify("terserah")` is
`('expense', 'Kesehatan')`, not `'Lainnya'`: the Kesehatan keyword `"rs"`
occurs as a substring of `"terserah"`. -/
theorem c4_counterexample :
    detect_category tCls3 = (sExpense, sKesehatan) ∧ sKesehatan ≠ sLainnya := by
  decide

/-- Claim C4 (amended): income keywords are scanned first, then the ordered
category table, default `Lainnya`; but on `"terserah"` the substring match
`"rs"` makes the category `Kesehatan`, not the default. -/
theorem c4_classify_examples :
    detect_category tCls1 = (sIncome, sPemasukan) ∧
    detect_category tCls2 = (sExpense, sMakanCat) ∧
    detect_category tCls3 = (sExpense, sKesehatan) := by decide

/-- Claim C5, counterexample: the relative-date result is not an exact
midnight — `replace(hour=0, minute=0, second=0)` keeps the microsecond field,
so resolving `"kemarin"` at a `now` with nonzero microseconds yields a
timestamp with nonzero microseconds. -/
theorem c5_counterexample :
    extract_date tDate1 now0 = some (subDays 1 (replace000 now0)) ∧
    (subDays 1 (replace000 now0)).microsecond ≠ 0 := by decide

/-- Claim C5 (amended): the resolver's pattern values hold for every `now` —
`kemarin` gives one day back, `"3 hari lalu"` three, `"dua hari lalu"` two via
the word table, `"minggu lalu"` seven, `"bulan lalu"` a flat thirty, and a
valid date literal gives that exact calendar date at true midnight — but the
relative results only zero hour/minute/second, preserving `now`'s
microsecond field. -/
theorem c5_resolver_values (now : PyDateTime) :
    extract_date tDate1 now = some (subDays 1 (replace000 now)) ∧
    extract_date tDate2 now = some (subDays 3 (replace000 now)) ∧
    extract_date tDate3 now = some (subDays 2 (replace000 now)) ∧
    extract_date tDate4 now = some (subDays 7 (replace000 now)) ∧
    extract_date tDate5 now = some (subDays 30 (replace000 now)) ∧
    extract_date tDate6 now = some ⟨daysFromCivil 2026 1 10, 0, 0, 0, 0⟩ ∧
    (replace000 now).microsecond = now.microsecond :=
  ⟨rfl, rfl, rfl, rfl, rfl, rfl, rfl⟩

/-- Claim C6, counterexample: a text containing an invalid date literal does
not always resolve to not-found — `"kemarin 32/01/2026"` contains the invalid
literal `32/01/2026` yet resolves via the earlier `kemarin` pattern. -/
theorem c6_counterexample :
    extract_date tBadKem now0 = some (subDays 1 (replace000 now0)) ∧
    extract_date tBadKem now0 ≠ none := by decide

/-- Claim C6 (amended): when the date-literal pattern is the one actually
reached (no earlier pattern matches) and the leftmost literal has an invalid
day/month/year combination, the resolver returns not-found rather than
raising; the embedded resolver and builder are total functions. -/
theorem c6_invalid_literal_not_found (now : PyDateTime) :
    extract_date tBad1 now = none ∧
    extract_date tBad2 now = none ∧
    extract_date tBad3 now = none :=
  ⟨rfl, rfl, rfl⟩

/-- Claim C7, counterexample: the description cleaner is not idempotent on
`"a 5 6kk"`. -/
theorem c7_counterexample :
    clean_description (clean_description tIdem amt1) amt1 ≠
      clean_description tIdem amt1 := by decide

/-- Claim C7 (amended): cleaning is not idempotent — removing a matched span
can juxtapose a number with a magnitude suffix that only a second pass strips:
`clean("a 5 6kk") = "a 5 k"` yet `clean("a 5 k") = "a"`.  Re-cleaning is
stable only when the first pass leaves no new pattern occurrence, as on
`"makan kemarin 15rb"`. -/
theorem c7_clean_not_idempotent :
    clean_description tIdem amt1 = tIdemOut ∧
    clean_description tIdemOut amt1 = tIdemOut2 ∧
    clean_description tStable amt1 = sMakanDesc ∧
    clean_description sMakanDesc amt1 = sMakanDesc := by decide

/-- Claim C8, counterexample: the cleaner's pattern set is not the same as the
extractor's/resolver's — on `"15kg"` the cleaner strips `"15k"` (its `k`
alternative has no word boundary), although the amount extractor and the date
resolver match nothing in that text. -/
theorem c8_counterexample :
    clean_description tKg amt1 = sG ∧
    extract_amount tKg = none ∧
    extract_date tKg now0 = none := by decide

/-- Claim C8 (amended): the cleaner's removal patterns only approximate the
extractor's matching patterns: the cleaner accepts a `k` suffix without the
extractor's word boundary (stripping `"15k"` inside `"15kg"`, which the
extractor rejects) and does not normalize decimal commas (leaving `"bonus 1,"`
from `"bonus 1,5jt"`, whose full numeral the extractor consumes as 1.5
million); on comma-free text whose suffix sits at a word boundary the two
agree, as on `"beli kopi 15rb"`. -/
theorem c8_pattern_divergence :
    (clean_description tKg amt1 = sG ∧ extract_amount tKg = none) ∧
    (clean_description tAmt4 amt1 = sBonus1Comma ∧
      extract_amount tAmt4 = some (PyFloat.ofNat 1500000)) ∧
    (clean_description tAmt2 amt1 = sBeliKopi ∧
      extract_amount tAmt2 = some (PyFloat.ofNat 15000)) := by decide

/-- Claim C9: the persistable row is, in order: date string, time string,
localized type label, category, signed amount (negative exactly for
non-income records, positive for income), description, detail, and last the
new balance computed by the persistence collaborator from its current
balance — eight cells in total. -/
theorem c9_row_shape (t : Transaction) (bal : PyFloat) (h : t.amount.IsPos) :
    (add_transaction_row t bal).length = 8 ∧
    (add_transaction_row t bal).get? 0 = some (Cell.str t.to_dict.date) ∧
    (add_transaction_row t bal).get? 1 = some (Cell.str t.to_dict.time) ∧
    (add_transaction_row t bal).get? 2 = some (Cell.str t.to_dict.type_) ∧
    (add_transaction_row t bal).get? 3 = some (Cell.str t.to_dict.category) ∧
    (add_transaction_row t bal).get? 5 = some (Cell.str t.to_dict.description) ∧
    (add_transaction_row t bal).get? 6 = some (Cell.str t.to_dict.detail) ∧
    (t.transaction_type = sIncome →
      (add_transaction_row t bal).get? 4 = some (Cell.num t.amount) ∧
      t.amount.IsPos ∧
      (add_transaction_row t bal).get? 7 =
        some (Cell.num (bal.add t.amount))) ∧
    (t.transaction_type ≠ sIncome →
      (add_transaction_row t bal).get? 4 = some (Cell.num t.amount.neg) ∧
      t.amount.neg.IsNeg ∧
      (add_transaction_row t bal).get? 7 =
        some (Cell.num (bal.sub t.amount))) := by
  by_cases hi : t.transaction_type = sIncome
  · refine ⟨rfl, ?_, ?_, ?_, ?_, ?_, ?_, ?_, ?_⟩ <;>
      simp [add_transaction_row, hi, h]
  · refine ⟨rfl, ?_, ?_, ?_, ?_, ?_, ?_, ?_, ?_⟩ <;>
      simp [add_transaction_row, hi, PyFloat.neg, PyFloat.IsNeg, h]

/-- Claim C9, witness: `c9_row_shape` applied to a concrete expense record —
the fifth cell is its negated (strictly negative) amount and the last cell is
the decreased balance. -/
theorem c9_row_shape_witness :
    (add_transaction_row t9 (PyFloat.ofNat 100000)).get? 4 =
      some (Cell.num (PyFloat.ofNat 25000).neg) ∧
    (PyFloat.ofNat 25000).neg.IsNeg ∧
    (add_transaction_row t9 (PyFloat.ofNat 100000)).get? 7 =
      some (Cell.num ((PyFloat.ofNat 100000).sub (PyFloat.ofNat 25000))) :=
  (c9_row_shape t9 (PyFloat.ofNat 100000) (by decide)).2.2.2.2.2.2.2.2
    (by decide)

/-- Claim C10, counterexample: a text containing a digit run followed by
`lalu` need not resolve to that many days back — in `"kemarin 5lalu"` the
earlier `kemarin` pattern wins, giving one day back, not five. -/
theorem c10_counterexample :
    extract_date tLaluKem now0 = some (subDays 1 (replace000 now0)) ∧
    subDays 1 (replace000 now0) ≠ subDays 5 (replace000 now0) := by decide

/-- Claim C10 (amended): in the numeric relative-date pattern `hari` is
optional and the space before `lalu` may be absent — for every `now`,
`"5lalu"`, `"5 lalu"` and `"5 hari lalu"` all resolve to five days back with
hour/minute/second zeroed (microseconds preserved), provided no earlier
pattern matches; and the cleaner strips the same hari-optional phrase from the
description. -/
theorem c10_hari_optional (now : PyDateTime) :
    extract_date tLalu1 now = some (subDays 5 (replace000 now)) ∧
    extract_date tLalu2 now = some (subDays 5 (replace000 now)) ∧
    extract_date tLalu3 now = some (subDays 5 (replace000 now)) ∧
    clean_description tLaluClean amt1 = sMakanDesc :=
  ⟨rfl, rfl, rfl, rfl⟩

end FinanceBot
